import Mathlib

/-!
Verification of the ALP-Looping core against its specification.

Shallow embedding of the Python modules
  src/alp/termination_conditions.py
  src/alp/retry/strategy.py
  src/iteration_state.py
into Lean 4.  Python floats are modelled as exact rationals (`Rat`); the
claims under study only concern finite values.  Python `int` is modelled as
`Int`.  Exceptions are modelled as values of an explicit `Exc` type and
exceptional control flow by explicit result constructors.  Logging and
`time.sleep` are effects with no bearing on the verified properties; the
sleeps' durations are nevertheless recorded in the retry trace so that the
delay computation is embedded exactly where the source performs it.
-/

/-! ## Embedding of src/alp/termination_conditions.py -/

/-- Embeds `TerminationStatus` (Enum): CONTINUE / TERMINATE. -/
inductive TerminationStatus
  | CONTINUE
  | TERMINATE
deriving DecidableEq, Repr

/-- Embeds the `TerminationConditions` dataclass: configuration fields
`max_iterations`, `performance_threshold` and mutable tracking fields
`current_iteration`, `best_performance`, with the dataclass defaults. -/
structure TerminationConditions where
  max_iterations : Int := 100
  performance_threshold : Rat := 95 / 100
  current_iteration : Int := 0
  best_performance : Rat := 0
deriving DecidableEq, Repr

/-- Embeds `TerminationConditions.evaluate_termination`.  The Python method
mutates `self` and returns a `TerminationStatus`; we return the updated
state paired with the status. -/
def TerminationConditions.evaluate_termination (self : TerminationConditions)
    (current_performance : Rat) : TerminationConditions × TerminationStatus :=
  -- self.current_iteration += 1
  let self := { self with current_iteration := self.current_iteration + 1 }
  -- self.best_performance = max(self.best_performance, current_performance)
  let self := { self with
    best_performance := max self.best_performance current_performance }
  -- if self.current_iteration >= self.max_iterations: return TERMINATE
  if self.current_iteration ≥ self.max_iterations then (self, .TERMINATE)
  -- if current_performance >= self.performance_threshold: return TERMINATE
  else if current_performance ≥ self.performance_threshold then (self, .TERMINATE)
  -- return CONTINUE
  else (self, .CONTINUE)

/-- Embeds `TerminationConditions.reset`. -/
def TerminationConditions.reset (self : TerminationConditions) :
    TerminationConditions :=
  { self with current_iteration := 0, best_performance := 0 }

/-! ## Embedding of src/alp/retry/strategy.py -/

/-- Embeds `RetryStrategy` (Enum). -/
inductive RetryStrategy
  | CONSTANT
  | LINEAR
  | EXPONENTIAL
deriving DecidableEq, Repr

/-- A Python exception value: its type name and message.  Exception
identity is modelled structurally. -/
structure Exc where
  typeName : String
  message : String
deriving DecidableEq, Repr

/-- Embeds the `TransientErrorRetryHandler` constructor state: the fields
set in `__init__` (the logger is an effect handle, not modelled). -/
structure TransientErrorRetryHandler where
  max_retries : Int := 3
  initial_delay : Rat := 1
  strategy : RetryStrategy := .EXPONENTIAL
deriving DecidableEq, Repr

/-- Embeds `TransientErrorRetryHandler._calculate_delay`.  The Python
method reads `self.strategy` and `self.initial_delay`; the trailing
`return self.initial_delay` fallback is unreachable for the three enum
members and so is absorbed by the total match. -/
def TransientErrorRetryHandler.calculate_delay
    (self : TransientErrorRetryHandler) (attempt : Nat) : Rat :=
  match self.strategy with
  | .CONSTANT => self.initial_delay
  | .LINEAR => self.initial_delay * attempt
  | .EXPONENTIAL => self.initial_delay * 2 ^ (attempt - 1)

/-- Outcome of one invocation of the governed operation: it either returns
a value or raises an exception. -/
inductive AttemptOutcome (α : Type)
  | success (v : α)
  | failure (e : Exc)
deriving DecidableEq, Repr

/-- Result of running the retry wrapper: a normal return, a propagated
exception, or Python's `TypeError` from `raise last_exception` when
`last_exception` is still `None` (the loop body never ran). -/
inductive RetryResult (α : Type)
  | ok (v : α)
  | raised (e : Exc)
  | typeError
deriving DecidableEq, Repr

/-- Observable trace of one run of the retry wrapper: its result, how many
times the governed operation was invoked, and the sleep durations passed
to `time.sleep` in order. -/
structure RunOutcome (α : Type) where
  result : RetryResult α
  calls : Nat
  delays : List Rat
deriving DecidableEq, Repr

/-- Whether an attempt outcome is a failure the configured `exceptions`
tuple catches (membership in the tuple is modelled by the predicate
`rb` on exception values). -/
def isRetryableFailure (rb : Exc → Bool) : AttemptOutcome α → Bool
  | .success _ => false
  | .failure e => rb e

/-- Embeds the `for attempt in range(1, self.max_retries + 1)` loop of the
wrapper in `TransientErrorRetryHandler.retry`, from a given `attempt`
number with `remaining` iterations left and `last` the recorded
`last_exception`.  The governed operation is modelled by the outcome `op k`
of its k-th invocation; `rb e` says whether exception `e` matches the
`exceptions` tuple; `on_retry a e = some e2` means the callback itself
raises `e2` (and `none` that it returns normally).  A failure not matching
`exceptions` is not caught and propagates; a failure raised by `on_retry`
is likewise unguarded in the source and propagates.  After the loop,
`raise last_exception` propagates the recorded exception, or is a
`TypeError` when none was recorded. -/
def TransientErrorRetryHandler.retryGo (self : TransientErrorRetryHandler)
    (op : Nat → AttemptOutcome α) (rb : Exc → Bool)
    (on_retry : Nat → Exc → Option Exc) :
    (remaining : Nat) → (attempt : Nat) → (last : Option Exc) → RunOutcome α
  | 0, _, none => { result := .typeError, calls := 0, delays := [] }
  | 0, _, some e => { result := .raised e, calls := 0, delays := [] }
  | remaining + 1, attempt, _last =>
    match op attempt with
    -- try: return func(*args, **kwargs)
    | .success v => { result := .ok v, calls := 1, delays := [] }
    | .failure e =>
      if rb e then
        -- except exceptions as e: last_exception = e; log; callback; sleep
        match on_retry attempt e with
        | some e2 =>
          -- the callback raised: nothing in the source catches it
          { result := .raised e2, calls := 1, delays := [] }
        | none =>
          let rest :=
            self.retryGo op rb on_retry remaining (attempt + 1) (some e)
          -- if attempt < self.max_retries: time.sleep(_calculate_delay(attempt))
          if (attempt : Int) < self.max_retries then
            { result := rest.result, calls := rest.calls + 1,
              delays := self.calculate_delay attempt :: rest.delays }
          else
            { result := rest.result, calls := rest.calls + 1,
              delays := rest.delays }
      else
        -- exception does not match `exceptions`: propagates uncaught
        { result := .raised e, calls := 1, delays := [] }

/-- Embeds the wrapper returned by `TransientErrorRetryHandler.retry`
applied to a function: runs the loop from attempt 1 with
`last_exception = None`; `range(1, max_retries + 1)` has
`max(max_retries, 0)` elements. -/
def TransientErrorRetryHandler.retry (self : TransientErrorRetryHandler)
    (op : Nat → AttemptOutcome α) (rb : Exc → Bool)
    (on_retry : Nat → Exc → Option Exc) : RunOutcome α :=
  self.retryGo op rb on_retry self.max_retries.toNat 1 none

/-! ## Embedding of src/iteration_state.py -/

/-- Embeds `IterationStatus` (Enum), the merged nine-member enumeration. -/
inductive IterationStatus
  | INITIALIZED
  | PENDING
  | IN_PROGRESS
  | RUNNING
  | COMPLETED
  | FAILED
  | ERROR
  | INTERRUPTED
  | TERMINATED
deriving DecidableEq, Repr

/-- Embeds the `.name` attribute of an `IterationStatus` member. -/
def IterationStatus.name : IterationStatus → String
  | .INITIALIZED => "INITIALIZED"
  | .PENDING => "PENDING"
  | .IN_PROGRESS => "IN_PROGRESS"
  | .RUNNING => "RUNNING"
  | .COMPLETED => "COMPLETED"
  | .FAILED => "FAILED"
  | .ERROR => "ERROR"
  | .INTERRUPTED => "INTERRUPTED"
  | .TERMINATED => "TERMINATED"

/-- Embeds the lookup `IterationStatus[s]`: `some` member on a valid name,
`none` models the `KeyError` it raises otherwise. -/
def IterationStatus.fromName (s : String) : Option IterationStatus :=
  if s = "INITIALIZED" then some .INITIALIZED
  else if s = "PENDING" then some .PENDING
  else if s = "IN_PROGRESS" then some .IN_PROGRESS
  else if s = "RUNNING" then some .RUNNING
  else if s = "COMPLETED" then some .COMPLETED
  else if s = "FAILED" then some .FAILED
  else if s = "ERROR" then some .ERROR
  else if s = "INTERRUPTED" then some .INTERRUPTED
  else if s = "TERMINATED" then some .TERMINATED
  else none

/-- A `datetime.datetime` value, abstracted to a timestamp.  Only the
identity of the value matters to the verified properties. -/
structure Datetime where
  stamp : Nat
deriving DecidableEq, Repr

/-- Modelled from the Python standard library contract: the string produced
by `datetime.isoformat()` is never empty and `datetime.fromisoformat`
recovers the original value from it.  The ISO-8601 string is represented by
the datetime value it denotes, which makes that contract definitional; the
textual rendering itself is standard-library behaviour, not code of this
repository. -/
structure IsoTimestamp where
  denoted : Datetime
deriving DecidableEq, Repr

/-- Embeds `self.start_time.isoformat()` (and `end_time` likewise). -/
def Datetime.isoformat (d : Datetime) : IsoTimestamp := ⟨d⟩

/-- Embeds `datetime.fromisoformat(s)` on strings produced by
`isoformat`. -/
def Datetime.fromisoformat (s : IsoTimestamp) : Datetime := s.denoted

/-- An opaque `Dict[str, Any]` payload (configuration / metrics / context).
The source passes these through serialization unchanged; entries are
modelled as string key-value pairs. -/
abbrev PyMapping := List (String × String)

/-- Embeds the `IterationState` dataclass with its field defaults.  The
`logger` field is an effect handle (it is neither serialized nor restored)
and is not part of the data model. -/
structure IterationState where
  iteration_id : String
  status : IterationStatus := .PENDING
  start_time : Option Datetime := none
  end_time : Option Datetime := none
  configuration : PyMapping := []
  metrics : PyMapping := []
  error_details : Option String := none
  context : PyMapping := []
deriving DecidableEq, Repr

/-- Embeds `IterationState.mark_started`; `datetime.now()` is modelled by
the explicit parameter `now`. -/
def IterationState.mark_started (self : IterationState) (now : Datetime) :
    IterationState :=
  { self with status := .RUNNING, start_time := some now }

/-- Embeds `IterationState.mark_completed`. -/
def IterationState.mark_completed (self : IterationState) (now : Datetime) :
    IterationState :=
  { self with status := .COMPLETED, end_time := some now }

/-- Embeds `IterationState.mark_failed`. -/
def IterationState.mark_failed (self : IterationState)
    (error_message : String) (now : Datetime) : IterationState :=
  { self with
    status := .FAILED
    end_time := some now
    error_details := some error_message }

/-- Embeds `IterationState.mark_interrupted`. -/
def IterationState.mark_interrupted (self : IterationState) (now : Datetime) :
    IterationState :=
  { self with status := .INTERRUPTED, end_time := some now }

/-- The plain mapping produced by `IterationState.to_dict`: fixed keys
`iteration_id, status, start_time, end_time, configuration, metrics,
error_details, context`, with the status as its symbolic name and the
timestamps as ISO strings or null (`Option`). -/
structure StateRecord where
  iteration_id : String
  status : String
  start_time : Option IsoTimestamp
  end_time : Option IsoTimestamp
  configuration : PyMapping
  metrics : PyMapping
  error_details : Option String
  context : PyMapping
deriving DecidableEq, Repr

/-- Embeds `IterationState.to_dict`.  `x.isoformat() if x else None` on an
optional datetime is `Option.map` (datetime objects are always truthy). -/
def IterationState.to_dict (self : IterationState) : StateRecord :=
  { iteration_id := self.iteration_id
    status := self.status.name
    start_time := self.start_time.map Datetime.isoformat
    end_time := self.end_time.map Datetime.isoformat
    configuration := self.configuration
    metrics := self.metrics
    error_details := self.error_details
    context := self.context }

/-- Embeds `IterationState.from_dict`: constructs the state from the
record's fields; `IterationStatus[data['status']]` raises `KeyError` on an
unknown name, modelled by `none`.  `fromisoformat(x) if x else None` is
`Option.map` (an `isoformat` string is non-empty, hence truthy). -/
def IterationState.from_dict (data : StateRecord) : Option IterationState :=
  match IterationStatus.fromName data.status with
  | none => none
  | some st =>
    some
      { iteration_id := data.iteration_id
        status := st
        start_time := data.start_time.map Datetime.fromisoformat
        end_time := data.end_time.map Datetime.fromisoformat
        configuration := data.configuration
        metrics := data.metrics
        error_details := data.error_details
        context := data.context }

/-! ### Embedding of `IterationStateManager` (the state store)

The file system under `state_dir` is modelled as an association list from
file names to the JSON records they hold; `save_state` opens the file with
mode `w`, truncating it, so a write fully replaces any record stored under
the same name. -/

/-- The contents of the `state_dir` directory. -/
abbrev FileStore := List (String × StateRecord)

/-- Reading a file: `some` record if it exists, `none` models
`FileNotFoundError`. -/
def FileStore.readFile (fs : FileStore) (name : String) : Option StateRecord :=
  match fs.find? (fun p => p.1 = name) with
  | some p => some p.2
  | none => none

/-- Writing a file with `open(name, 'w')` + `json.dump`: the new content
fully replaces whatever was stored under that name. -/
def FileStore.writeFile (fs : FileStore) (name : String) (r : StateRecord) :
    FileStore :=
  (name, r) :: fs.filter (fun p => p.1 ≠ name)

/-- Embeds `IterationStateManager.save_state`: writes
`{iteration_id}.json` containing `to_dict()` of the state. -/
def IterationStateManager.save_state (fs : FileStore)
    (iteration_state : IterationState) : FileStore :=
  fs.writeFile (iteration_state.iteration_id ++ ".json")
    iteration_state.to_dict

/-- Result of `IterationStateManager.load_state`: the loaded state, the
`None` returned after catching `FileNotFoundError`, or the `KeyError`
propagating out of `from_dict` on a record with an unknown status name
(carrying that name). -/
inductive LoadResult
  | ok (s : IterationState)
  | notFound
  | keyError (statusName : String)
deriving DecidableEq, Repr

/-- Embeds `IterationStateManager.load_state`: reads
`{iteration_id}.json` and reconstructs the state via `from_dict`; a
missing file yields the explicit `None` (`notFound`), not an error. -/
def IterationStateManager.load_state (fs : FileStore)
    (iteration_id : String) : LoadResult :=
  match fs.readFile (iteration_id ++ ".json") with
  | none => .notFound
  | some data =>
    match IterationState.from_dict data with
    | none => .keyError data.status
    | some st => .ok st


/-! ## Helper lemmas about the retry loop -/

/-- Unfolding: an exhausted loop re-raises the recorded exception. -/
theorem retryGo_zero_some (h : TransientErrorRetryHandler)
    (op : Nat → AttemptOutcome α) (rb : Exc → Bool)
    (cb : Nat → Exc → Option Exc) (a : Nat) (e : Exc) :
    h.retryGo op rb cb 0 a (some e) =
      { result := .raised e, calls := 0, delays := [] } := rfl

/-- Unfolding: an empty loop reaches `raise last_exception` with
`last_exception = None`. -/
theorem retryGo_zero_none (h : TransientErrorRetryHandler)
    (op : Nat → AttemptOutcome α) (rb : Exc → Bool)
    (cb : Nat → Exc → Option Exc) (a : Nat) :
    h.retryGo op rb cb 0 a none =
      { result := .typeError, calls := 0, delays := [] } := rfl

/-- Unfolding: an iteration whose attempt succeeds returns at once. -/
theorem retryGo_succ_success (h : TransientErrorRetryHandler)
    (op : Nat → AttemptOutcome α) (rb : Exc → Bool)
    (cb : Nat → Exc → Option Exc) (r a : Nat) (last : Option Exc) (v : α)
    (hopa : op a = .success v) :
    h.retryGo op rb cb (r + 1) a last =
      { result := .ok v, calls := 1, delays := [] } := by
  simp only [TransientErrorRetryHandler.retryGo, hopa]

/-- Unfolding: an iteration whose attempt raises a retryable failure, with
a callback that returns normally, proceeds with the next iteration; the
result is unchanged and the call count grows by one. -/
theorem retryGo_succ_fail_cont (h : TransientErrorRetryHandler)
    (op : Nat → AttemptOutcome α) (rb : Exc → Bool)
    (cb : Nat → Exc → Option Exc) (r a : Nat) (last : Option Exc) (e0 : Exc)
    (hopa : op a = .failure e0) (hrb0 : rb e0 = true)
    (hcba : cb a e0 = none) :
    (h.retryGo op rb cb (r + 1) a last).result =
      (h.retryGo op rb cb r (a + 1) (some e0)).result ∧
    (h.retryGo op rb cb (r + 1) a last).calls =
      (h.retryGo op rb cb r (a + 1) (some e0)).calls + 1 := by
  simp only [TransientErrorRetryHandler.retryGo, hopa, hrb0, if_true, hcba]
  by_cases hlt : (a : Int) < h.max_retries <;> simp [hlt]

/-- The loop invokes the operation at most `remaining` times. -/
theorem retryGo_calls_le (h : TransientErrorRetryHandler)
    (op : Nat → AttemptOutcome α) (rb : Exc → Bool)
    (cb : Nat → Exc → Option Exc) :
    ∀ (r a : Nat) (last : Option Exc),
      (h.retryGo op rb cb r a last).calls ≤ r := by
  intro r
  induction r with
  | zero =>
    intro a last
    cases last <;> simp [TransientErrorRetryHandler.retryGo]
  | succ n ih =>
    intro a last
    simp only [TransientErrorRetryHandler.retryGo]
    cases hop : op a with
    | success v => simp
    | failure e =>
      by_cases hrb : rb e
      · simp only [hrb, if_true]
        cases hcb : cb a e with
        | some e2 => simp
        | none =>
          by_cases hlt : (a : Int) < h.max_retries <;> simp [hlt] <;>
            exact ih _ _
      · simp [hrb]

/-- When every attempt in the window raises a retryable failure and the
callback returns normally, the loop invokes the operation on every
iteration and finally re-raises the exception of the last attempt. -/
theorem retryGo_all_fail (h : TransientErrorRetryHandler)
    (op : Nat → AttemptOutcome α) (rb : Exc → Bool)
    (cb : Nat → Exc → Option Exc) (hcb : ∀ a e, cb a e = none) :
    ∀ (r a : Nat) (last : Option Exc) (e : Exc),
      (∀ j, a ≤ j → j < a + r → isRetryableFailure rb (op j) = true) →
      op (a + r) = .failure e → rb e = true →
      (h.retryGo op rb cb (r + 1) a last).result = .raised e ∧
      (h.retryGo op rb cb (r + 1) a last).calls = r + 1 := by
  intro r
  induction r with
  | zero =>
    intro a last e _hall hop hrb
    rw [Nat.add_zero] at hop
    have hstep := retryGo_succ_fail_cont h op rb cb 0 a last e
      hop hrb (hcb a e)
    rw [retryGo_zero_some] at hstep
    exact ⟨hstep.1, hstep.2⟩
  | succ n ih =>
    intro a last e hall hop hrb
    have ha : isRetryableFailure rb (op a) = true :=
      hall a (Nat.le_refl a) (by omega)
    cases hopa : op a with
    | success v =>
      rw [hopa] at ha
      simp [isRetryableFailure] at ha
    | failure e0 =>
      rw [hopa] at ha
      have hrb0 : rb e0 = true := ha
      have hrec := ih (a + 1) (some e0) e
        (fun j hj1 hj2 => hall j (by omega) (by omega))
        (by rw [show a + 1 + n = a + (n + 1) by omega]; exact hop) hrb
      have hstep := retryGo_succ_fail_cont h op rb cb (n + 1) a last e0
        hopa hrb0 (hcb a e0)
      exact ⟨hstep.1.trans hrec.1, by rw [hstep.2, hrec.2]⟩

/-- When the attempts before `k` raise retryable failures, the callback
returns normally, and attempt `k` (inside the window) succeeds with `v`,
the loop returns `v` and invokes the operation exactly on attempts
`a..k`. -/
theorem retryGo_success (h : TransientErrorRetryHandler)
    (op : Nat → AttemptOutcome α) (rb : Exc → Bool)
    (cb : Nat → Exc → Option Exc) (hcb : ∀ a e, cb a e = none) :
    ∀ (r a : Nat) (last : Option Exc) (k : Nat) (v : α),
      a ≤ k → k < a + r →
      (∀ j, a ≤ j → j < k → isRetryableFailure rb (op j) = true) →
      op k = .success v →
      (h.retryGo op rb cb r a last).result = .ok v ∧
      (h.retryGo op rb cb r a last).calls = k + 1 - a := by
  intro r
  induction r with
  | zero =>
    intro a last k v hak hkr
    exact absurd hkr (by omega)
  | succ n ih =>
    intro a last k v hak hkr hall hop
    rcases Nat.eq_or_lt_of_le hak with heq | hlt
    · subst heq
      rw [retryGo_succ_success h op rb cb n a last v hop]
      refine ⟨rfl, ?_⟩
      show 1 = a + 1 - a
      omega
    · have ha : isRetryableFailure rb (op a) = true :=
        hall a (Nat.le_refl a) hlt
      cases hopa : op a with
      | success v0 =>
        rw [hopa] at ha
        simp [isRetryableFailure] at ha
      | failure e0 =>
        rw [hopa] at ha
        have hrb0 : rb e0 = true := ha
        have hrec := ih (a + 1) (some e0) k v (by omega) (by omega)
          (fun j hj1 hj2 => hall j (by omega) hj2) hop
        have hstep := retryGo_succ_fail_cont h op rb cb n a last e0
          hopa hrb0 (hcb a e0)
        refine ⟨hstep.1.trans hrec.1, ?_⟩
        rw [hstep.2, hrec.2]
        omega

/-! ## Claim theorems -/

/-- C1: a call to `evaluate_termination` increments `current_iteration` by
exactly 1, sets `best_performance` to the maximum of the old best and the
current performance, and returns TERMINATE when the incremented iteration
count reaches `max_iterations`, else TERMINATE when the current performance
reaches `performance_threshold`, and otherwise CONTINUE. -/
theorem evaluate_termination_spec (tc : TerminationConditions) (p : Rat) :
    (tc.evaluate_termination p).1.current_iteration =
      tc.current_iteration + 1 ∧
    (tc.evaluate_termination p).1.best_performance =
      max tc.best_performance p ∧
    (tc.evaluate_termination p).2 =
      (if tc.current_iteration + 1 ≥ tc.max_iterations then .TERMINATE
       else if p ≥ tc.performance_threshold then .TERMINATE
       else .CONTINUE) := by
  simp only [TerminationConditions.evaluate_termination]
  split_ifs <;> simp_all

/-- C9: `reset` sets `current_iteration` to 0 and `best_performance` to
0.0, and leaves the configuration fields `max_iterations` and
`performance_threshold` unchanged; these four fields are all the fields of
the evaluator. -/
theorem reset_spec (tc : TerminationConditions) :
    tc.reset.current_iteration = 0 ∧
    tc.reset.best_performance = 0 ∧
    tc.reset.max_iterations = tc.max_iterations ∧
    tc.reset.performance_threshold = tc.performance_threshold :=
  ⟨rfl, rfl, rfl, rfl⟩

/-- C5: for every attempt number k ≥ 1 and positive `initial_delay`, the
backoff delay is `initial_delay` for CONSTANT, `initial_delay * k` for
LINEAR, and `initial_delay * 2 ^ (k - 1)` for EXPONENTIAL; the computation
is a total function for such inputs. -/
theorem calculate_delay_spec (n : Int) (d : Rat) (k : Nat)
    (hk : 1 ≤ k) (hd : 0 < d) :
    (TransientErrorRetryHandler.mk n d .CONSTANT).calculate_delay k = d ∧
    (TransientErrorRetryHandler.mk n d .LINEAR).calculate_delay k = d * k ∧
    (TransientErrorRetryHandler.mk n d .EXPONENTIAL).calculate_delay k =
      d * 2 ^ (k - 1) :=
  ⟨rfl, rfl, rfl⟩

/-- Witness for C5 at k = 3 and initial delay 1/2. -/
theorem calculate_delay_spec_witness :
    (TransientErrorRetryHandler.mk 3 (1 / 2) .CONSTANT).calculate_delay 3 =
      1 / 2 ∧
    (TransientErrorRetryHandler.mk 3 (1 / 2) .LINEAR).calculate_delay 3 =
      1 / 2 * (3 : Nat) ∧
    (TransientErrorRetryHandler.mk 3 (1 / 2) .EXPONENTIAL).calculate_delay 3 =
      1 / 2 * 2 ^ (3 - 1) :=
  calculate_delay_spec 3 (1 / 2) 3 (by norm_num) (by norm_num)

/-- C10: constructed with `max_retries ≤ 0`, the wrapper never invokes the
governed operation and ends at `raise last_exception` with
`last_exception` still None, i.e. a `TypeError`. -/
theorem retry_nonpositive_max_retries (h : TransientErrorRetryHandler)
    (op : Nat → AttemptOutcome α) (rb : Exc → Bool)
    (cb : Nat → Exc → Option Exc) (hN : h.max_retries ≤ 0) :
    h.retry op rb cb = { result := .typeError, calls := 0, delays := [] } := by
  have h0 : h.max_retries.toNat = 0 := by omega
  rw [TransientErrorRetryHandler.retry, h0, retryGo_zero_none]

/-- Witness for C10: `max_retries = 0` with an operation that would
succeed; it is never invoked and the run ends in the `TypeError`. -/
theorem retry_nonpositive_max_retries_witness :
    TransientErrorRetryHandler.retry ⟨0, 1, .CONSTANT⟩
      (fun _ => AttemptOutcome.success (37 : Nat)) (fun _ => true)
      (fun _ _ => none) =
      { result := .typeError, calls := 0, delays := [] } :=
  retry_nonpositive_max_retries _ _ _ _ (by decide)

/-- C2: with `max_retries = N ≥ 1`, a configured set of retryable failure
kinds and a callback that returns normally: an operation succeeding on
attempt k ≤ N (after retryable failures) is invoked exactly k times and its
success value is returned; an operation failing retryably on every attempt
is invoked exactly N times; and no run ever invokes the operation more than
N times. -/
theorem retry_attempt_counts (h : TransientErrorRetryHandler)
    (op : Nat → AttemptOutcome α) (rb : Exc → Bool)
    (cb : Nat → Exc → Option Exc)
    (hN : 1 ≤ h.max_retries) (hcb : ∀ a e, cb a e = none) :
    (∀ (k : Nat) (v : α), 1 ≤ k → (k : Int) ≤ h.max_retries →
      (∀ (j : Nat), 1 ≤ j → j < k → isRetryableFailure rb (op j) = true) →
      op k = .success v →
      (h.retry op rb cb).result = .ok v ∧ (h.retry op rb cb).calls = k) ∧
    ((∀ (j : Nat), 1 ≤ j → (j : Int) ≤ h.max_retries →
        isRetryableFailure rb (op j) = true) →
      (h.retry op rb cb).calls = h.max_retries.toNat) ∧
    (h.retry op rb cb).calls ≤ h.max_retries.toNat := by
  refine ⟨?_, ?_, retryGo_calls_le h op rb cb _ 1 none⟩
  · intro k v hk1 hk2 hall hop
    have hres := retryGo_success h op rb cb hcb h.max_retries.toNat 1 none
      k v (by omega) (by omega) hall hop
    refine ⟨hres.1, ?_⟩
    show (h.retryGo op rb cb h.max_retries.toNat 1 none).calls = k
    rw [hres.2]
    omega
  · intro hall
    have hlastR : isRetryableFailure rb (op h.max_retries.toNat) = true :=
      hall h.max_retries.toNat (by omega) (by omega)
    cases hlast : op h.max_retries.toNat with
    | success v =>
      rw [hlast] at hlastR
      simp [isRetryableFailure] at hlastR
    | failure e =>
      rw [hlast] at hlastR
      have hN1 : h.max_retries.toNat = (h.max_retries.toNat - 1) + 1 := by
        omega
      have hres := retryGo_all_fail h op rb cb hcb
        (h.max_retries.toNat - 1) 1 none e
        (fun j hj1 hj2 => hall j hj1 (by omega))
        (by rw [show 1 + (h.max_retries.toNat - 1) = h.max_retries.toNat by
              omega]
            exact hlast)
        hlastR
      show (h.retryGo op rb cb h.max_retries.toNat 1 none).calls =
        h.max_retries.toNat
      rw [hN1]
      rw [hres.2]

/-- Witness for C2: the spec scenario — an operation that fails twice with
a retryable kind and succeeds on the third attempt, `max_retries = 3`: the
result is the success value and the operation ran exactly 3 times. -/
theorem retry_attempt_counts_witness :
    (TransientErrorRetryHandler.retry ⟨3, 1 / 10, .CONSTANT⟩
      (fun j => if j < 3 then .failure ⟨"ValueError", "Temporary error"⟩
        else .success "Success")
      (fun _ => true) (fun _ _ => none)).result = .ok "Success" ∧
    (TransientErrorRetryHandler.retry ⟨3, 1 / 10, .CONSTANT⟩
      (fun j => if j < 3 then .failure ⟨"ValueError", "Temporary error"⟩
        else .success "Success")
      (fun _ => true) (fun _ _ => none)).calls = 3 :=
  (retry_attempt_counts ⟨3, 1 / 10, .CONSTANT⟩
      (fun j => if j < 3 then .failure ⟨"ValueError", "Temporary error"⟩
        else .success "Success")
      (fun _ => true) (fun _ _ => none) (by decide)
      (fun _ _ => rfl)).1 3 "Success" (by decide) (by decide)
    (fun j h1 h2 => by interval_cases j <;> rfl) (by rfl)

/-- C3: when every attempt raises a retryable failure (callback returning
normally), the wrapper makes all `max_retries` attempts and then re-raises
exactly the exception of the final attempt — the same failure value, not a
wrapper. -/
theorem retry_propagates_last_failure (h : TransientErrorRetryHandler)
    (op : Nat → AttemptOutcome α) (rb : Exc → Bool)
    (cb : Nat → Exc → Option Exc)
    (hN : 1 ≤ h.max_retries) (hcb : ∀ a e, cb a e = none) (e : Exc)
    (hall : ∀ (j : Nat), 1 ≤ j → (j : Int) ≤ h.max_retries →
      isRetryableFailure rb (op j) = true)
    (hlast : op h.max_retries.toNat = .failure e) :
    (h.retry op rb cb).result = .raised e ∧
    (h.retry op rb cb).calls = h.max_retries.toNat := by
  have hrb : rb e = true := by
    have := hall h.max_retries.toNat (by omega) (by omega)
    rw [hlast] at this
    exact this
  have hN1 : h.max_retries.toNat = (h.max_retries.toNat - 1) + 1 := by omega
  have hres := retryGo_all_fail h op rb cb hcb
    (h.max_retries.toNat - 1) 1 none e
    (fun j hj1 hj2 => hall j hj1 (by omega))
    (by rw [show 1 + (h.max_retries.toNat - 1) = h.max_retries.toNat by omega]
        exact hlast)
    hrb
  constructor
  · show (h.retryGo op rb cb h.max_retries.toNat 1 none).result = .raised e
    rw [hN1, hres.1]
  · show (h.retryGo op rb cb h.max_retries.toNat 1 none).calls =
      h.max_retries.toNat
    rw [hN1, hres.2]

/-- Witness for C3: the spec scenario — an operation that always raises the
same retryable exception, `max_retries = 2`: exactly 2 attempts and the
propagated failure is the original exception value. -/
theorem retry_propagates_last_failure_witness :
    (TransientErrorRetryHandler.retry ⟨2, 1, .EXPONENTIAL⟩
      (fun _ => AttemptOutcome.failure (α := String)
        ⟨"ValueError", "Always fails"⟩)
      (fun _ => true) (fun _ _ => none)).result =
      .raised ⟨"ValueError", "Always fails"⟩ ∧
    (TransientErrorRetryHandler.retry ⟨2, 1, .EXPONENTIAL⟩
      (fun _ => AttemptOutcome.failure (α := String)
        ⟨"ValueError", "Always fails"⟩)
      (fun _ => true) (fun _ _ => none)).calls = 2 :=
  retry_propagates_last_failure ⟨2, 1, .EXPONENTIAL⟩
    (fun _ => AttemptOutcome.failure (α := String)
      ⟨"ValueError", "Always fails"⟩)
    (fun _ => true) (fun _ _ => none) (by decide) (fun _ _ => rfl)
    ⟨"ValueError", "Always fails"⟩ (fun j h1 h2 => rfl) rfl

/-- C4 counterexample: `max_retries = 3`, an operation that always raises a
retryable `ValueError`, and a callback that itself raises a
`RuntimeError`: the run stops after one single invocation of the operation
(not 3) and propagates the callback's exception, so a failing callback
does abort the retry loop. -/
theorem retry_callback_abort_counterexample :
    (TransientErrorRetryHandler.retry ⟨3, 1, .CONSTANT⟩
      (fun _ => AttemptOutcome.failure (α := String) ⟨"ValueError", "boom"⟩)
      (fun _ => true)
      (fun _ _ => some ⟨"RuntimeError", "callback failed"⟩)).calls = 1 ∧
    (TransientErrorRetryHandler.retry ⟨3, 1, .CONSTANT⟩
      (fun _ => AttemptOutcome.failure (α := String) ⟨"ValueError", "boom"⟩)
      (fun _ => true)
      (fun _ _ => some ⟨"RuntimeError", "callback failed"⟩)).result =
      .raised ⟨"RuntimeError", "callback failed"⟩ ∧
    ¬ (TransientErrorRetryHandler.retry ⟨3, 1, .CONSTANT⟩
      (fun _ => AttemptOutcome.failure (α := String) ⟨"ValueError", "boom"⟩)
      (fun _ => true)
      (fun _ _ => some ⟨"RuntimeError", "callback failed"⟩)).calls = 3 := by
  decide

/-- Unfolding: an iteration whose attempt raises a retryable failure on
which the callback itself raises `e2` propagates `e2` at once. -/
theorem retryGo_succ_cb_raise (h : TransientErrorRetryHandler)
    (op : Nat → AttemptOutcome α) (rb : Exc → Bool)
    (cb : Nat → Exc → Option Exc) (r a : Nat) (last : Option Exc)
    (e e2 : Exc) (hopa : op a = .failure e) (hrb : rb e = true)
    (hcba : cb a e = some e2) :
    h.retryGo op rb cb (r + 1) a last =
      { result := .raised e2, calls := 1, delays := [] } := by
  simp only [TransientErrorRetryHandler.retryGo, hopa, hrb, if_true, hcba]

/-- When the attempts before `k` raise retryable failures on which the
callback returns normally, and attempt `k` (inside the window) raises a
retryable failure on which the callback itself raises `e2`, the loop stops
there: it propagates `e2` having invoked the operation exactly on attempts
`a..k`. -/
theorem retryGo_cb_raise (h : TransientErrorRetryHandler)
    (op : Nat → AttemptOutcome α) (rb : Exc → Bool)
    (cb : Nat → Exc → Option Exc) :
    ∀ (r a : Nat) (last : Option Exc) (k : Nat) (e e2 : Exc),
      a ≤ k → k < a + r →
      (∀ j, a ≤ j → j < k → isRetryableFailure rb (op j) = true) →
      (∀ j e0, a ≤ j → j < k → op j = .failure e0 → cb j e0 = none) →
      op k = .failure e → rb e = true → cb k e = some e2 →
      (h.retryGo op rb cb r a last).result = .raised e2 ∧
      (h.retryGo op rb cb r a last).calls = k + 1 - a := by
  intro r
  induction r with
  | zero =>
    intro a last k e e2 hak hkr
    exact absurd hkr (by omega)
  | succ n ih =>
    intro a last k e e2 hak hkr hall hcbnone hopk hrb hcbk
    rcases Nat.eq_or_lt_of_le hak with heq | hlt
    · subst heq
      rw [retryGo_succ_cb_raise h op rb cb n a last e e2 hopk hrb hcbk]
      refine ⟨rfl, ?_⟩
      show 1 = a + 1 - a
      omega
    · have ha : isRetryableFailure rb (op a) = true :=
        hall a (Nat.le_refl a) hlt
      cases hopa : op a with
      | success v0 =>
        rw [hopa] at ha
        simp [isRetryableFailure] at ha
      | failure e0 =>
        rw [hopa] at ha
        have hrb0 : rb e0 = true := ha
        have hcba : cb a e0 = none :=
          hcbnone a e0 (Nat.le_refl a) hlt hopa
        have hrec := ih (a + 1) (some e0) k e e2 (by omega) (by omega)
          (fun j hj1 hj2 => hall j (by omega) hj2)
          (fun j e1 hj1 hj2 hj3 => hcbnone j e1 (by omega) hj2 hj3)
          hopk hrb hcbk
        have hstep := retryGo_succ_fail_cont h op rb cb n a last e0
          hopa hrb0 hcba
        refine ⟨hstep.1.trans hrec.1, ?_⟩
        rw [hstep.2, hrec.2]
        omega

/-- C4 as amended: a failure raised by the observer callback aborts the
retry loop — at whichever retryable-failure handling step k ≤ max_retries
the callback first raises `e2` (having returned normally on the earlier
steps), the wrapper propagates `e2` after exactly k invocations of the
operation; the remaining attempts are not performed and the outcome is no
longer determined by the operation's own outcomes. -/
theorem retry_callback_failure_aborts (h : TransientErrorRetryHandler)
    (op : Nat → AttemptOutcome α) (rb : Exc → Bool)
    (cb : Nat → Exc → Option Exc) (hN : 1 ≤ h.max_retries)
    (k : Nat) (e e2 : Exc) (hk1 : 1 ≤ k) (hk2 : (k : Int) ≤ h.max_retries)
    (hall : ∀ (j : Nat), 1 ≤ j → j < k →
      isRetryableFailure rb (op j) = true)
    (hcbnone : ∀ (j : Nat) (e0 : Exc), 1 ≤ j → j < k →
      op j = .failure e0 → cb j e0 = none)
    (hopk : op k = .failure e) (hrb : rb e = true)
    (hcbk : cb k e = some e2) :
    (h.retry op rb cb).result = .raised e2 ∧
    (h.retry op rb cb).calls = k := by
  have hres := retryGo_cb_raise h op rb cb h.max_retries.toNat 1 none k e e2
    (by omega) (by omega) hall hcbnone hopk hrb hcbk
  refine ⟨hres.1, ?_⟩
  show (h.retryGo op rb cb h.max_retries.toNat 1 none).calls = k
  rw [hres.2]
  omega

/-- Witness for the amended C4: `max_retries = 3`, an operation that always
raises a retryable `ValueError`, and a callback that returns normally on
attempt 1 and raises on attempt 2: the run propagates the callback's
exception after exactly 2 of the 3 attempts. -/
theorem retry_callback_failure_aborts_witness :
    (TransientErrorRetryHandler.retry ⟨3, 1, .LINEAR⟩
      (fun _ => AttemptOutcome.failure (α := Nat) ⟨"ValueError", "bad"⟩)
      (fun _ => true)
      (fun j _ => if j = 2 then some ⟨"RuntimeError", "observer crashed"⟩
        else none)).result =
      .raised ⟨"RuntimeError", "observer crashed"⟩ ∧
    (TransientErrorRetryHandler.retry ⟨3, 1, .LINEAR⟩
      (fun _ => AttemptOutcome.failure (α := Nat) ⟨"ValueError", "bad"⟩)
      (fun _ => true)
      (fun j _ => if j = 2 then some ⟨"RuntimeError", "observer crashed"⟩
        else none)).calls = 2 :=
  retry_callback_failure_aborts ⟨3, 1, .LINEAR⟩
    (fun _ => AttemptOutcome.failure (α := Nat) ⟨"ValueError", "bad"⟩)
    (fun _ => true)
    (fun j _ => if j = 2 then some ⟨"RuntimeError", "observer crashed"⟩
      else none)
    (by decide) 2 ⟨"ValueError", "bad"⟩ ⟨"RuntimeError", "observer crashed"⟩
    (by decide) (by decide)
    (fun j h1 h2 => by interval_cases j <;> rfl)
    (fun j e0 h1 h2 hop => by interval_cases j <;> rfl)
    rfl rfl rfl

/-- Status names round-trip through the enum lookup. -/
theorem fromName_name (st : IterationStatus) :
    IterationStatus.fromName st.name = some st := by
  cases st <;> rfl

/-- Deserialization inverts serialization on every state. -/
theorem from_dict_to_dict (s : IterationState) :
    IterationState.from_dict s.to_dict = some s := by
  simp only [IterationState.from_dict, IterationState.to_dict,
    fromName_name]
  cases s with
  | mk iteration_id status start_time end_time configuration metrics
      error_details context =>
    cases start_time <;> cases end_time <;> rfl

/-- C6: serialization round-trips — `to_dict` renders the status as its
symbolic name and the timestamps as ISO strings or null, and `from_dict`
applied to `to_dict s` rebuilds a state field-for-field equal to `s` (id,
status, both timestamps, configuration, metrics, error details and
context, nested mappings included). -/
theorem to_dict_from_dict_roundtrip (s : IterationState) :
    s.to_dict.status = s.status.name ∧
    s.to_dict.start_time = s.start_time.map Datetime.isoformat ∧
    s.to_dict.end_time = s.end_time.map Datetime.isoformat ∧
    IterationState.from_dict s.to_dict = some s :=
  ⟨rfl, rfl, rfl, from_dict_to_dict s⟩

/-- C7 counterexample: a state in the terminal status COMPLETED on which a
further transition operation is neither rejected nor ignored —
`mark_started` moves it back to RUNNING, so its status changes after a
terminal status. -/
theorem terminal_transition_counterexample :
    (IterationState.mark_completed { iteration_id := "it-1" } ⟨1⟩).status =
      .COMPLETED ∧
    ((IterationState.mark_completed { iteration_id := "it-1" } ⟨1⟩).mark_started
      ⟨2⟩).status = .RUNNING ∧
    ¬ ((IterationState.mark_completed { iteration_id := "it-1" } ⟨1⟩).mark_started
      ⟨2⟩).status = .COMPLETED := by
  refine ⟨rfl, rfl, ?_⟩
  intro hc
  cases hc

/-- C7 as amended: the transition operations perform no validation — each
`mark_*` unconditionally overwrites the status (with RUNNING, COMPLETED,
FAILED, INTERRUPTED respectively) whatever the current status is, so a
terminal state can transition again rather than being rejected or
ignored. -/
theorem transitions_unguarded (s : IterationState) (t : Datetime)
    (msg : String) :
    (s.mark_started t).status = .RUNNING ∧
    (s.mark_completed t).status = .COMPLETED ∧
    (s.mark_failed msg t).status = .FAILED ∧
    (s.mark_interrupted t).status = .INTERRUPTED :=
  ⟨rfl, rfl, rfl, rfl⟩

/-- C8: loading an id with no persisted record returns the explicit
not-found value (Python `None`), not an error; and after `save_state s`,
`load_state` on `s.iteration_id` succeeds with a state whose record equals
`to_dict s` — the saved file fully replaces any earlier record under the
same id, whatever the prior contents of the store. -/
theorem store_save_load_spec (fs : FileStore) (id : String)
    (s : IterationState) :
    (fs.readFile (id ++ ".json") = none →
      IterationStateManager.load_state fs id = .notFound) ∧
    IterationStateManager.load_state (IterationStateManager.save_state fs s)
      s.iteration_id = .ok s ∧
    (IterationStateManager.save_state fs s).readFile
      (s.iteration_id ++ ".json") = some s.to_dict := by
  refine ⟨?_, ?_, ?_⟩
  · intro hnone
    simp [IterationStateManager.load_state, hnone]
  · have hread : (IterationStateManager.save_state fs s).readFile
        (s.iteration_id ++ ".json") = some s.to_dict := by
      simp [IterationStateManager.save_state, FileStore.readFile,
        FileStore.writeFile, List.find?]
    simp [IterationStateManager.load_state, hread, from_dict_to_dict]
  · simp [IterationStateManager.save_state, FileStore.readFile,
      FileStore.writeFile, List.find?]

/-- Witness for C8: the empty store has no record for "unknown", so the
load returns the not-found value; saving a populated state and loading it
back by its id yields it again. -/
theorem store_save_load_spec_witness :
    IterationStateManager.load_state [] "unknown" = .notFound ∧
    IterationStateManager.load_state
      (IterationStateManager.save_state []
        { iteration_id := "it-9", status := .RUNNING,
          start_time := some ⟨5⟩, end_time := none,
          configuration := [("learning_rate", "0.01")],
          metrics := [("accuracy", "0.95")],
          error_details := none, context := [] })
      "it-9" =
      .ok { iteration_id := "it-9", status := .RUNNING,
            start_time := some ⟨5⟩, end_time := none,
            configuration := [("learning_rate", "0.01")],
            metrics := [("accuracy", "0.95")],
            error_details := none, context := [] } :=
  ⟨(store_save_load_spec [] "unknown"
      { iteration_id := "w", status := .PENDING, start_time := none,
        end_time := none, configuration := [], metrics := [],
        error_details := none, context := [] }).1 rfl,
   (store_save_load_spec [] "it-9"
      { iteration_id := "it-9", status := .RUNNING,
        start_time := some ⟨5⟩, end_time := none,
        configuration := [("learning_rate", "0.01")],
        metrics := [("accuracy", "0.95")],
        error_details := none, context := [] }).2.1⟩
